import Mathlib

/-!
Verification of the bemapi client/server pair (src/client.py, src/server.py).

The Python code is shallowly embedded: JSON values become the inductive
`JsonValue`, Python dicts become association lists over string keys (JSON
object keys are strings), raised exceptions become `Except PyExc`, and each
relevant Python function becomes a Lean definition with the same structure,
statement by statement.
-/

namespace Bemapi

/-- JSON values, the payloads exchanged by client and server. Numbers are
modelled as integers; no claim involves fractional numerics. -/
inductive JsonValue where
  | null : JsonValue
  | bool : Bool → JsonValue
  | num : Int → JsonValue
  | str : String → JsonValue
  | arr : List JsonValue → JsonValue
  | obj : List (String × JsonValue) → JsonValue

/-- A decoded JSON request body: a Python dict with string keys in insertion
order, as produced by `request.get_json()` for a JSON object. -/
abbrev PyDict := List (String × JsonValue)

/-- Exceptions that the embedded server code can raise.  `apiException`
models `raise APIException(msg)` (server.py line 16: the class carries only
the positional message argument).  `httpException` models Flask `abort(code)`.
The remaining constructors model ordinary Python runtime errors that the
code can hit (`TypeError`, `IndexError`, `KeyError`, `AttributeError`). -/
inductive PyExc where
  | apiException : String → PyExc
  | httpException : Nat → PyExc
  | typeError : PyExc
  | indexError : PyExc
  | keyError : PyExc
  | attributeError : PyExc
deriving DecidableEq

/-- Python `==` between a JSON value and a string literal: true exactly when
the value is that string (a list, number, bool, None or dict never equals a
`str` in Python). -/
def pyEqStr (v : JsonValue) (s : String) : Bool :=
  match v with
  | .str t => t == s
  | _ => false

/-- Python `len` on a JSON value: defined for lists, strings and dicts,
raises `TypeError` (modelled as `none`) on numbers, booleans and `None`. -/
def pyLen (v : JsonValue) : Option Nat :=
  match v with
  | .arr xs => some xs.length
  | .str s => some s.length
  | .obj fields => some fields.length
  | _ => none

/-- Python iteration over a JSON value: a list yields its elements, a string
its one-character substrings, a dict its keys; numbers, booleans and `None`
are not iterable (`TypeError`, modelled as `none`). -/
def pyIter (v : JsonValue) : Option (List JsonValue) :=
  match v with
  | .arr xs => some xs
  | .str s => some (s.data.map (fun c => .str (String.mk [c])))
  | .obj fields => some (fields.map (fun kv => .str kv.1))
  | _ => none

/-- Python `k in d` for a dict. -/
def dictHas (d : PyDict) (k : String) : Bool :=
  d.any (fun kv => kv.1 == k)

/-- Python `d[k]` as an `Option`: the first (and in a real dict, only)
binding of `k`. -/
def dictFind (d : PyDict) (k : String) : Option JsonValue :=
  (d.find? (fun kv => kv.1 == k)).map (fun kv => kv.2)

/-- Python `del d[k]`: removes the binding of `k`, raising `KeyError`
(modelled as `none`) when `k` is absent. -/
def pyDel (d : PyDict) (k : String) : Option PyDict :=
  if dictHas d k then some (d.filter (fun kv => !(kv.1 == k))) else none

/-- Python `d[k] = v`: overwrites an existing binding in place, otherwise
appends the new binding (insertion order). -/
def dictSet (d : PyDict) (k : String) (v : JsonValue) : PyDict :=
  if dictHas d k then d.map (fun kv => if kv.1 == k then (k, v) else kv)
  else d ++ [(k, v)]

/-- server.py line 13: `SUPPORTED_VERSIONS = ['v1']`. -/
def SUPPORTED_VERSIONS : List String := ["v1"]

/-- One of the four guarded arity checks in the server's lookup
(server.py lines 206-213): when `isType` holds, Python evaluates
`len(ids)` (which can itself raise `TypeError`) and raises the
invalid-count `APIException` when the count predicate `bad` holds. -/
def arityGuard (isType : Bool) (ids : JsonValue) (bad : Nat → Bool) :
    Except PyExc Unit :=
  if isType then
    match pyLen ids with
    | none => .error .typeError
    | some n =>
      if bad n then .error (.apiException "Invalid number of IDs given!")
      else .ok ()
  else .ok ()

/-- Server-side ID selector validation, server.py lines 202-213: the type
membership check followed by the four sequential arity checks. -/
def serverIdCheck (idtype ids : JsonValue) : Except PyExc Unit := do
  if !(pyEqStr idtype "card" || pyEqStr idtype "song" ||
       pyEqStr idtype "instance" || pyEqStr idtype "server") then
    throw (PyExc.apiException "Invalid ID type provided!")
  arityGuard (pyEqStr idtype "card") ids (fun n => n == 0)
  arityGuard (pyEqStr idtype "song") ids (fun n => !(n == 1 || n == 2))
  arityGuard (pyEqStr idtype "instance") ids (fun n => !(n == 3))
  arityGuard (pyEqStr idtype "server") ids (fun n => !(n == 0))

/-- Client-side ID selector validation, client.py lines 64-72
(`APIClient.__id_check`): same shape as the server check but without the
`instance` type; the client is typed, so `idtype` is a string and `ids` a
list of strings. -/
def client_id_check (idtype : String) (ids : List String) :
    Except String Unit := do
  if !(idtype == "card" || idtype == "song" || idtype == "server") then
    throw "Invalid ID type provided!"
  if idtype == "card" && ids.length == 0 then
    throw "Invalid number of IDs given!"
  if idtype == "song" && !(ids.length == 1 || ids.length == 2) then
    throw "Invalid number of IDs given!"
  if idtype == "server" && !(ids.length == 0) then
    throw "Invalid number of IDs given!"

/-- The three object handler classes registered in the dispatch table
(server.py lines 31-46, 217-221). -/
inductive Handler where
  | records : Handler
  | profile : Handler
  | statistics : Handler
deriving DecidableEq

/-- Python hashability of a JSON value: strings, numbers, booleans and
`None` are hashable; lists and dicts are not, so using one as a dict key
raises `TypeError`. -/
def pyHashable (v : JsonValue) : Bool :=
  match v with
  | .arr _ => false
  | .obj _ => false
  | _ => true

/-- The dispatch table lookup `.get(obj)` on the dict keyed by `records`,
`profile` and `statistics` (server.py lines 217-221).  A dict `.get` first
hashes its argument: an unhashable request value (a JSON array or object in
the `objects` list) raises `TypeError` there; a hashable value is compared
against the string keys, so only the three exact strings match and every
other hashable value yields `None`. -/
def handlerFor (obj : JsonValue) : Except PyExc (Option Handler) :=
  match obj with
  | .arr _ => .error .typeError
  | .obj _ => .error .typeError
  | .str s =>
    if s == "records" then .ok (some .records)
    else if s == "profile" then .ok (some .profile)
    else if s == "statistics" then .ok (some .statistics)
    else .ok none
  | _ => .ok none

/-- `getattr(inst, 'fetch_' + protoversion)` succeeds exactly when the
attribute exists (server.py lines 227-231).  Every handler class (and the
`BaseObject` base, server.py line 27) defines exactly one fetch method,
`fetch_v1`, so the attribute exists iff the protocol version is `v1`,
independent of which handler was instantiated. -/
def hasFetch (h : Handler) (protoversion : String) : Bool :=
  protoversion == "v1"

/-- The `fetch_v1` stubs of the three registered handlers all return the
empty list (server.py lines 33-46); the constructor arguments
`(game, version, omnimix)` and the call arguments are accepted and unused. -/
def fetch_v1 (h : Handler) (game version : String) (omnimix : Bool)
    (idtype ids : JsonValue) (args : PyDict) : JsonValue :=
  .arr []

/-- The dispatch loop of `lookup` (server.py lines 215-235): for each
requested object, look up its handler (unknown → `abort(404)`), resolve the
versioned fetch capability (absent → `abort(501)`), and store the fetch
result under the object key.  `responsedata` starts as `{}` and the key used
is the request value itself (only strings reach the assignment, since only
strings match a handler). -/
def dispatchLoop (protoversion game version : String) (omnimix : Bool)
    (idtype ids : JsonValue) (args : PyDict) :
    List JsonValue → PyDict → Except PyExc PyDict
  | [], acc => .ok acc
  | obj :: rest, acc =>
    match handlerFor obj with
    | .error e => .error e
    | .ok none => .error (.httpException 404)
    | .ok (some h) =>
      if hasFetch h protoversion then
        dispatchLoop protoversion game version omnimix idtype ids args rest
          (dictSet acc (match obj with | .str s => s | _ => "")
            (fetch_v1 h game version omnimix idtype ids args))
      else .error (.httpException 501)

/-- `args = copy.deepcopy(requestdata)` followed by `del args['type']`,
`del args['ids']`, `del args['objects']` (server.py lines 187-190). -/
def buildArgs (rd : PyDict) : Option PyDict :=
  (pyDel rd "type").bind (fun a =>
    (pyDel a "ids").bind (fun b =>
      pyDel b "objects"))

/-- The allowed envelope keys (server.py line 184). -/
def allowedParams : List String := ["type", "ids", "objects", "since", "until"]

/-- `for param in requestdata: if param not in [...]` raises on the first
key outside the allowed set (server.py lines 183-185); whether any such key
exists is all that is observable (the exception is the same either way). -/
def hasUnrecognized (rd : PyDict) : Bool :=
  rd.any (fun kv => !(allowedParams.contains kv.1))

/-- The omnimix derivation (server.py lines 196-200): `requestversion[0]`
raises `IndexError` on an empty segment; a leading `'o'` sets
`omnimix = True` and drops that character (`requestversion[1:]`), anything
else leaves the segment untouched with `omnimix = False`. -/
def omniSplit (requestversion : String) : Except PyExc (Bool × String) :=
  match requestversion.data with
  | [] => .error .indexError
  | c :: cs =>
    if c == 'o' then .ok (true, String.mk cs)
    else .ok (false, requestversion)

/-- The `lookup` view (server.py lines 178-235), after the auth gate, on a
decoded body (`none` models a body `request.get_json()` could not decode:
`'type' in None` then raises `TypeError`).  The statement order follows the
source: mandatory-key checks, unrecognized-key check, `args` construction,
protocol-version gate, omnimix derivation, ID selector validation, dispatch
loop.  The `getD .null` fallbacks on `dictFind` are never taken: the
mandatory-key checks already guaranteed the keys are present. -/
def lookup (protoversion requestgame requestversion : String)
    (requestdata : Option PyDict) : Except PyExc PyDict := do
  match requestdata with
  | none => throw PyExc.typeError
  | some rd =>
    if !(dictHas rd "type") then
      throw (PyExc.apiException "Missing parameters for request.")
    if !(dictHas rd "ids") then
      throw (PyExc.apiException "Missing parameters for request.")
    if !(dictHas rd "objects") then
      throw (PyExc.apiException "Missing parameters for request.")
    if hasUnrecognized rd then
      throw (PyExc.apiException "Unrecognized parameters for request.")
    match buildArgs rd with
    | none => throw PyExc.keyError
    | some args =>
      if !(SUPPORTED_VERSIONS.contains protoversion) then
        throw (PyExc.httpException 501)
      match omniSplit requestversion with
      | .error e => throw e
      | .ok (omnimix, effectiveVersion) =>
        let idtype := (dictFind rd "type").getD .null
        let ids := (dictFind rd "ids").getD .null
        serverIdCheck idtype ids
        match pyIter ((dictFind rd "objects").getD .null) with
        | none => throw PyExc.typeError
        | some objs =>
          dispatchLoop protoversion requestgame effectiveVersion omnimix
            idtype ids args objs []

/-- The `info` view (server.py lines 158-172), after the auth gate: an
undecodable body (`get_json()` returning `None`) raises the
malformed-JSON `APIException`; a non-empty body raises the
unrecognized-parameters `APIException`. -/
def info (requestdata : Option PyDict) : Except PyExc PyDict :=
  match requestdata with
  | none => .error (.apiException "Request JSON could not be decoded.")
  | some rd =>
    if !rd.isEmpty then
      .error (.apiException "Unrecognized parameters for request.")
    else
      .ok [("versions", .arr (SUPPORTED_VERSIONS.map .str)),
           ("name", .str "Sample e-AMUSEMENT Server"),
           ("email", .str "nobody@nowhere.com")]

/-- HTTP status of an encoded outcome, per the registered Flask error
handlers (server.py lines 93-149):
* a success is jsonified with status 200;
* `abort(501)`, `abort(404)`, `abort(405)` hit their handlers, which answer
  with the same code; other abort codes pass through unchanged;
* `abort(400)` (Flask's own bad-JSON rejection) hits `bad_json`
  (server.py lines 128-133), which responds with status **500**, not 400;
* a raised `APIException` is routed to `api_exception` (lines 104-109),
  which reads `exception.message` and `exception.code` — attributes that a
  Python 3 `APIException(msg)` does not have — so the handler itself raises
  `AttributeError` and the request ends as an internal server error, 500;
* any other Python exception is caught by the blanket handler (lines
  93-101) and answered with 500. -/
def statusOf (r : Except PyExc PyDict) : Nat :=
  match r with
  | .ok _ => 200
  | .error (.httpException c) => if c == 400 then 500 else c
  | .error (.apiException _) => 500
  | .error _ => 500

/-- Response bodies of the HTTP-code error handlers (server.py lines
112-149); every one is a single-key `error` object, so an aborted request
carries no result data. -/
def errorBody (c : Nat) : PyDict :=
  if c == 501 then [("error", .str "Unsupported protocol version in request.")]
  else if c == 404 then
    [("error", .str "Unrecognized request game/version or object.")]
  else if c == 405 then [("error", .str "Invalid request URI or method.")]
  else if c == 400 then [("error", .str "Request JSON could not be decoded.")]
  else [("error", .str "Exception occured while processing request.")]

/-- Python `s.split(sep, 1)` restricted to what `before_request` needs:
`some (l, r)` when `sep` occurs (split at its first occurrence), `none`
when it does not (in which case the two-variable unpacking raises
`ValueError`). -/
def splitFirst : List Char → Char → Option (List Char × List Char)
  | [], _ => none
  | c :: cs, sep =>
    if c == sep then some ([], cs)
    else
      match splitFirst cs sep with
      | none => none
      | some (l, r) => some (c :: l, r)

/-- Python `s.lower()`, character by character (the scheme strings compared
in the auth gate are ASCII). -/
def pyLower (s : String) : String :=
  String.mk (s.data.map Char.toLower)

/-- The authentication gate (server.py lines 57-70).  With no header,
`g.authorized` stays `False`.  With a header containing a space, the scheme
is lowercased and compared to `'token'` and the token to the shared secret
`"dummy_token"`.  With a header containing no space, the `ValueError` from
unpacking is caught and both variables are set to `None` — after which
`authtype.lower()` on line 69 raises `AttributeError` out of the gate. -/
def before_request (authHeader : Option String) : Except PyExc Bool :=
  match authHeader with
  | none => .ok false
  | some authkey =>
    match splitFirst authkey.data ' ' with
    | some (authtype, authtoken) =>
      .ok (pyLower (String.mk authtype) == "token" &&
           String.mk authtoken == "dummy_token")
    | none => .error PyExc.attributeError

/-- The client URI join (client.py lines 14-18): insert a `/` separator
exactly when `base_uri[-1:]` (its last character, or the empty string for
an empty base) differs from `'/'`. -/
def exchange_uri (base_uri request_uri : String) : String :=
  if base_uri.data.getLast? != some '/' then
    base_uri ++ "/" ++ request_uri
  else
    base_uri ++ request_uri

/-- An object request value on which the dispatch loop aborts with 404 or
501 under the given protocol version: the dict lookup succeeds but no
handler is registered for it, or its handler lacks the versioned fetch
capability.  An unhashable value is not of this kind — it ends the loop
with `TypeError` instead. -/
def brokenDispatch (protoversion : String) (obj : JsonValue) : Bool :=
  match handlerFor obj with
  | .error _ => false
  | .ok none => true
  | .ok (some h) => !(hasFetch h protoversion)

/- ------------------------------------------------------------------ -/
/- Theorems.                                                           -/
/- ------------------------------------------------------------------ -/

@[simp] theorem ebind_ok {ε α β : Type} (a : α) (k : α → Except ε β) :
    (Except.ok a >>= k : Except ε β) = k a := rfl

@[simp] theorem ebind_error {ε α β : Type} (e : ε) (k : α → Except ε β) :
    ((Except.error e : Except ε α) >>= k) = Except.error e := rfl

@[simp] theorem ethrow_eq {ε α : Type} (e : ε) :
    (throw e : Except ε α) = Except.error e := rfl

@[simp] theorem epure_eq {ε α : Type} (a : α) :
    (pure a : Except ε α) = Except.ok a := rfl

theorem serverIdCheck_card (l : List JsonValue) :
    serverIdCheck (.str "card") (.arr l) =
      if l.length = 0 then .error (.apiException "Invalid number of IDs given!")
      else .ok () := by
  by_cases h : l.length = 0 <;>
    simp [serverIdCheck, arityGuard, pyEqStr, pyLen, h]

theorem serverIdCheck_song (l : List JsonValue) :
    serverIdCheck (.str "song") (.arr l) =
      if l.length = 1 ∨ l.length = 2 then .ok ()
      else .error (.apiException "Invalid number of IDs given!") := by
  by_cases h1 : l.length = 1 <;> by_cases h2 : l.length = 2 <;>
    simp [serverIdCheck, arityGuard, pyEqStr, pyLen, h1, h2]

theorem serverIdCheck_instance (l : List JsonValue) :
    serverIdCheck (.str "instance") (.arr l) =
      if l.length = 3 then .ok ()
      else .error (.apiException "Invalid number of IDs given!") := by
  by_cases h : l.length = 3 <;>
    simp [serverIdCheck, arityGuard, pyEqStr, pyLen, h]

theorem serverIdCheck_server (l : List JsonValue) :
    serverIdCheck (.str "server") (.arr l) =
      if l.length = 0 then .ok ()
      else .error (.apiException "Invalid number of IDs given!") := by
  by_cases h : l.length = 0 <;>
    simp [serverIdCheck, arityGuard, pyEqStr, pyLen, h]

theorem serverIdCheck_other (t : String) (ids : JsonValue)
    (h1 : t ≠ "card") (h2 : t ≠ "song") (h3 : t ≠ "instance")
    (h4 : t ≠ "server") :
    serverIdCheck (.str t) ids =
      .error (.apiException "Invalid ID type provided!") := by
  simp [serverIdCheck, pyEqStr, h1, h2, h3, h4]

theorem client_id_check_card (l : List String) :
    client_id_check "card" l =
      if l.length = 0 then .error "Invalid number of IDs given!"
      else .ok () := by
  by_cases h : l.length = 0 <;> simp [client_id_check, h]

theorem client_id_check_song (l : List String) :
    client_id_check "song" l =
      if l.length = 1 ∨ l.length = 2 then .ok ()
      else .error "Invalid number of IDs given!" := by
  by_cases h1 : l.length = 1 <;> by_cases h2 : l.length = 2 <;>
    simp [client_id_check, h1, h2]

theorem client_id_check_server (l : List String) :
    client_id_check "server" l =
      if l.length = 0 then .ok ()
      else .error "Invalid number of IDs given!" := by
  by_cases h : l.length = 0 <;> simp [client_id_check, h]

theorem client_id_check_other (t : String) (l : List String)
    (h1 : t ≠ "card") (h2 : t ≠ "song") (h3 : t ≠ "server") :
    client_id_check t l = .error "Invalid ID type provided!" := by
  simp [client_id_check, h1, h2, h3]

/-- C1: the ID Selector Validator enforces the arity table exactly on both
client and server — `card` accepts iff the list is non-empty, `song` iff it
has length 1 or 2, `instance` (server only) iff it has length exactly 3,
`server` iff it is empty, and any other type string is rejected as an
unsupported ID type. -/
theorem C1_arity_table (t : String) (ids : List JsonValue)
    (cids : List String) :
    (serverIdCheck (.str "card") (.arr ids) = .ok () ↔ ids ≠ [])
  ∧ (serverIdCheck (.str "song") (.arr ids) = .ok () ↔
      (ids.length = 1 ∨ ids.length = 2))
  ∧ (serverIdCheck (.str "instance") (.arr ids) = .ok () ↔ ids.length = 3)
  ∧ (serverIdCheck (.str "server") (.arr ids) = .ok () ↔ ids = [])
  ∧ (t ∉ (["card", "song", "instance", "server"] : List String) →
      serverIdCheck (.str t) (.arr ids) =
        .error (.apiException "Invalid ID type provided!"))
  ∧ (client_id_check "card" cids = .ok () ↔ cids ≠ [])
  ∧ (client_id_check "song" cids = .ok () ↔
      (cids.length = 1 ∨ cids.length = 2))
  ∧ (client_id_check "server" cids = .ok () ↔ cids = [])
  ∧ (t ∉ (["card", "song", "server"] : List String) →
      client_id_check t cids = .error "Invalid ID type provided!") := by
  refine ⟨?_, ?_, ?_, ?_, ?_, ?_, ?_, ?_, ?_⟩
  · rw [serverIdCheck_card]
    by_cases h : ids.length = 0 <;>
      simp [h, List.length_eq_zero.symm]
  · rw [serverIdCheck_song]
    by_cases h : ids.length = 1 ∨ ids.length = 2 <;> simp [h]
  · rw [serverIdCheck_instance]
    by_cases h : ids.length = 3 <;> simp [h]
  · rw [serverIdCheck_server]
    by_cases h : ids.length = 0 <;>
      simp_all [List.length_eq_zero]
  · intro h
    simp only [List.mem_cons, List.not_mem_nil, or_false, not_or] at h
    exact serverIdCheck_other t _ h.1 h.2.1 h.2.2.1 h.2.2.2
  · rw [client_id_check_card]
    by_cases h : cids.length = 0 <;>
      simp [h, List.length_eq_zero.symm]
  · rw [client_id_check_song]
    by_cases h : cids.length = 1 ∨ cids.length = 2 <;> simp [h]
  · rw [client_id_check_server]
    by_cases h : cids.length = 0 <;>
      simp_all [List.length_eq_zero]
  · intro h
    simp only [List.mem_cons, List.not_mem_nil, or_false, not_or] at h
    exact client_id_check_other t _ h.1 h.2.1 h.2.2

/-- Instantiation of `C1_arity_table` at concrete inputs, discharging its
conditional parts: the unknown type `widget` is rejected by both sides, and
a one-element `card` selector is accepted by the server. -/
theorem C1_arity_table_inst :
    serverIdCheck (.str "widget") (.arr [.str "a"]) =
      .error (.apiException "Invalid ID type provided!")
  ∧ client_id_check "widget" [] = .error "Invalid ID type provided!"
  ∧ serverIdCheck (.str "card") (.arr [.str "a"]) = .ok () := by
  obtain ⟨h1, _, _, _, h5, _, _, _, h9⟩ :=
    C1_arity_table "widget" [JsonValue.str "a"] []
  exact ⟨h5 (by decide), h9 (by decide), h1.mpr (by simp)⟩

/-- C7: the client-side and server-side ID validators agree on every type
other than `instance` (in particular on `card`, `song` and `server`, the
types both recognize, and on the rejection of every unknown type); only
`instance` is recognized by the server alone — always rejected by the
client, accepted by the server exactly on three ids. -/
theorem C7_validators_agree (t : String) (ids : List String) :
    (t ≠ "instance" →
      (client_id_check t ids = .ok () ↔
        serverIdCheck (.str t) (.arr (ids.map .str)) = .ok ()))
  ∧ client_id_check "instance" ids = .error "Invalid ID type provided!"
  ∧ (serverIdCheck (.str "instance") (.arr (ids.map .str)) = .ok () ↔
      ids.length = 3) := by
  refine ⟨?_, rfl, ?_⟩
  · intro hinst
    by_cases hc : t = "card"
    · subst hc
      rw [client_id_check_card, serverIdCheck_card]
      by_cases h : ids.length = 0 <;> simp [h]
    · by_cases hs : t = "song"
      · subst hs
        rw [client_id_check_song, serverIdCheck_song]
        by_cases h : ids.length = 1 ∨ ids.length = 2 <;> simp [h]
      · by_cases hv : t = "server"
        · subst hv
          rw [client_id_check_server, serverIdCheck_server]
          by_cases h : ids.length = 0 <;> simp [h]
        · rw [client_id_check_other t ids hc hs hv,
            serverIdCheck_other t _ hc hs hinst hv]
          simp
  · rw [serverIdCheck_instance]
    by_cases h : ids.length = 3 <;> simp [h]

/-- Instantiation of `C7_validators_agree` at `t = "card"`, `ids = ["x"]`,
discharging the non-`instance` hypothesis. -/
theorem C7_validators_agree_inst :
    (client_id_check "card" ["x"] = .ok () ↔
      serverIdCheck (.str "card") (.arr [.str "x"]) = .ok ())
  ∧ client_id_check "instance" ["x"] = .error "Invalid ID type provided!"
  ∧ (serverIdCheck (.str "instance") (.arr [.str "x"]) = .ok () ↔
      (["x"] : List String).length = 3) := by
  obtain ⟨h1, h2, h3⟩ := C7_validators_agree "card" ["x"]
  refine ⟨h1 (by decide), ?_, ?_⟩
  · obtain ⟨_, h2i, _⟩ := C7_validators_agree "instance" ["x"]
    exact h2i
  · exact h3

theorem find?_filter_ne (d : PyDict) (k t : String) (hkt : k ≠ t) :
    (d.filter (fun kv => !(kv.1 == t))).find? (fun kv => kv.1 == k) =
      d.find? (fun kv => kv.1 == k) := by
  induction d with
  | nil => rfl
  | cons a rest ih =>
    by_cases ha : a.1 = t
    · have hfa : ¬ (!(a.1 == t)) = true := by simp [ha]
      have hak : ¬ (a.1 == k) = true := by
        simp only [beq_iff_eq]
        exact fun h => hkt (h ▸ ha)
      rw [@List.filter_cons_of_neg _ (fun kv => !(kv.1 == t)) a rest hfa,
        @List.find?_cons_of_neg _ (fun kv => kv.1 == k) a rest hak, ih]
    · have hfa : (!(a.1 == t)) = true := by simp [ha]
      rw [@List.filter_cons_of_pos _ (fun kv => !(kv.1 == t)) a rest hfa]
      by_cases hk : a.1 = k
      · have hpos : (a.1 == k) = true := by simp [hk]
        rw [@List.find?_cons_of_pos _ (fun kv => kv.1 == k) a _ hpos,
          @List.find?_cons_of_pos _ (fun kv => kv.1 == k) a _ hpos]
      · have hneg : ¬ (a.1 == k) = true := by simp [hk]
        rw [@List.find?_cons_of_neg _ (fun kv => kv.1 == k) a _ hneg,
          @List.find?_cons_of_neg _ (fun kv => kv.1 == k) a _ hneg, ih]

theorem find?_filter_self (d : PyDict) (t : String) :
    (d.filter (fun kv => !(kv.1 == t))).find? (fun kv => kv.1 == t) =
      none := by
  rw [List.find?_eq_none]
  intro x hx
  simp only [List.mem_filter, Bool.not_eq_true'] at hx
  simp [hx.2]

theorem dictHas_filter_ne (d : PyDict) (k t : String) (hkt : k ≠ t) :
    dictHas (d.filter (fun kv => !(kv.1 == t))) k = dictHas d k := by
  induction d with
  | nil => rfl
  | cons a rest ih =>
    by_cases ha : a.1 = t
    · have hfa : ¬ (!(a.1 == t)) = true := by simp [ha]
      have hak : (a.1 == k) = false := by
        simp only [beq_eq_false_iff_ne]
        exact fun h => hkt (h ▸ ha)
      rw [@List.filter_cons_of_neg _ (fun kv => !(kv.1 == t)) a rest hfa]
      unfold dictHas
      rw [List.any_cons, hak, Bool.false_or]
      exact ih
    · have hfa : (!(a.1 == t)) = true := by simp [ha]
      rw [@List.filter_cons_of_pos _ (fun kv => !(kv.1 == t)) a rest hfa]
      unfold dictHas
      rw [List.any_cons, List.any_cons]
      unfold dictHas at ih
      rw [ih]

theorem buildArgs_eq (rd : PyDict) (h1 : dictHas rd "type" = true)
    (h2 : dictHas rd "ids" = true) (h3 : dictHas rd "objects" = true) :
    buildArgs rd =
      some (((rd.filter (fun kv => !(kv.1 == "type"))).filter
        (fun kv => !(kv.1 == "ids"))).filter
          (fun kv => !(kv.1 == "objects"))) := by
  have h2f : dictHas (rd.filter (fun kv => !(kv.1 == "type"))) "ids" = true := by
    rw [dictHas_filter_ne rd "ids" "type" (by decide)]; exact h2
  have h3f : dictHas ((rd.filter (fun kv => !(kv.1 == "type"))).filter
      (fun kv => !(kv.1 == "ids"))) "objects" = true := by
    rw [dictHas_filter_ne _ "objects" "ids" (by decide),
      dictHas_filter_ne _ "objects" "type" (by decide)]
    exact h3
  have e1 : pyDel rd "type" =
      some (rd.filter (fun kv => !(kv.1 == "type"))) := by
    unfold pyDel; rw [if_pos h1]
  have e2 : pyDel (rd.filter (fun kv => !(kv.1 == "type"))) "ids" =
      some ((rd.filter (fun kv => !(kv.1 == "type"))).filter
        (fun kv => !(kv.1 == "ids"))) := by
    unfold pyDel; rw [if_pos h2f]
  have e3 : pyDel ((rd.filter (fun kv => !(kv.1 == "type"))).filter
      (fun kv => !(kv.1 == "ids"))) "objects" =
      some (((rd.filter (fun kv => !(kv.1 == "type"))).filter
        (fun kv => !(kv.1 == "ids"))).filter
          (fun kv => !(kv.1 == "objects"))) := by
    unfold pyDel; rw [if_pos h3f]
  unfold buildArgs
  rw [e1, Option.some_bind, e2, Option.some_bind, e3]

/-- C10: for a body containing the three mandatory keys, the
extra-parameters dictionary handed to the fetch capabilities is the body
with exactly `type`, `ids` and `objects` removed — every other key, `since`
and `until` included, keeps the binding it had in the body. -/
theorem C10_extra_params_frame (rd : PyDict)
    (h1 : dictHas rd "type" = true) (h2 : dictHas rd "ids" = true)
    (h3 : dictHas rd "objects" = true) :
    ∃ args, buildArgs rd = some args ∧
      ∀ k : String, dictFind args k =
        if k ∈ (["type", "ids", "objects"] : List String) then none
        else dictFind rd k := by
  refine ⟨_, buildArgs_eq rd h1 h2 h3, ?_⟩
  intro k
  by_cases hk1 : k = "type"
  · subst hk1
    simp only [dictFind, if_pos (by decide : "type" ∈
      (["type", "ids", "objects"] : List String))]
    rw [find?_filter_ne _ _ "objects" (by decide),
      find?_filter_ne _ _ "ids" (by decide), find?_filter_self]
    rfl
  · by_cases hk2 : k = "ids"
    · subst hk2
      simp only [dictFind, if_pos (by decide : "ids" ∈
        (["type", "ids", "objects"] : List String))]
      rw [find?_filter_ne _ _ "objects" (by decide), find?_filter_self]
      rfl
    · by_cases hk3 : k = "objects"
      · subst hk3
        simp only [dictFind, if_pos (by decide : "objects" ∈
          (["type", "ids", "objects"] : List String))]
        rw [find?_filter_self]
        rfl
      · have hmem : k ∉ (["type", "ids", "objects"] : List String) := by
          simp [hk1, hk2, hk3]
        rw [if_neg hmem]
        simp only [dictFind]
        rw [find?_filter_ne _ _ "objects" hk3,
          find?_filter_ne _ _ "ids" hk2, find?_filter_ne _ _ "type" hk1]

/-- Instantiation of `C10_extra_params_frame` on a concrete body carrying a
`since` key. -/
theorem C10_extra_params_frame_inst :
    ∃ args,
      buildArgs [("type", .str "card"), ("ids", .arr [.str "E004"]),
        ("objects", .arr [.str "records"]), ("since", .num 10)] = some args ∧
      ∀ k : String, dictFind args k =
        if k ∈ (["type", "ids", "objects"] : List String) then none
        else dictFind [("type", .str "card"), ("ids", .arr [.str "E004"]),
          ("objects", .arr [.str "records"]), ("since", .num 10)] k :=
  C10_extra_params_frame _ rfl rfl rfl

/-- C2 (amended): the unsupported-protocol-version outcome (HTTP 501) is
produced for every request whose body passes envelope validation, whatever
the `type`, `ids` and `objects` values are — but envelope validation runs
first in the source, so a body failing it gets the envelope error instead
(see `C2_version_gate_cex`). -/
theorem C2_version_gate (pv g rv : String) (rd : PyDict)
    (hpv : SUPPORTED_VERSIONS.contains pv = false)
    (h1 : dictHas rd "type" = true) (h2 : dictHas rd "ids" = true)
    (h3 : dictHas rd "objects" = true) (h4 : hasUnrecognized rd = false) :
    lookup pv g rv (some rd) = .error (.httpException 501) ∧
    statusOf (lookup pv g rv (some rd)) = 501 := by
  have hne : pv ≠ "v1" := by
    intro h
    subst h
    simp [SUPPORTED_VERSIONS] at hpv
  have hl : lookup pv g rv (some rd) = .error (.httpException 501) := by
    simp [lookup, h1, h2, h3, h4, buildArgs_eq rd h1 h2 h3,
      SUPPORTED_VERSIONS, hne]
  exact ⟨hl, by rw [hl]; rfl⟩

/-- C2 as stated is false at a concrete input: with the unsupported protocol
version `v2` and an empty body (missing all mandatory keys), the server
raises the missing-parameters `APIException` — whose encoded status is 500,
not the unsupported-protocol-version outcome 501. -/
theorem C2_version_gate_cex :
    lookup "v2" "g" "1" (some []) =
      .error (.apiException "Missing parameters for request.")
  ∧ statusOf (lookup "v2" "g" "1" (some [])) = 500 := ⟨rfl, rfl⟩

/-- Instantiation of `C2_version_gate` on a concrete envelope-valid body
whose `type` is bogus and whose `ids` is not even a list: the version gate
still fires first with 501. -/
theorem C2_version_gate_inst :
    lookup "v2" "gameX" "1"
        (some [("type", .str "bogus"), ("ids", .num 7),
          ("objects", .arr [])]) =
      .error (.httpException 501) ∧
    statusOf (lookup "v2" "gameX" "1"
        (some [("type", .str "bogus"), ("ids", .num 7),
          ("objects", .arr [])])) = 501 :=
  C2_version_gate "v2" "gameX" "1" _ rfl rfl rfl rfl rfl

/-- C8: omnimix derivation — on every non-empty version route segment, a
leading `'o'` yields `omnimix = true` with the segment minus that one
character as effective version; any other leading character yields
`omnimix = false` with the segment unchanged. -/
theorem C8_omnimix_derivation (s : String) (c : Char) (cs : List Char)
    (h : s.data = c :: cs) :
    omniSplit s =
      if c = 'o' then .ok (true, String.mk cs) else .ok (false, s) := by
  by_cases hc : c = 'o' <;> simp [omniSplit, h, hc]

/-- Instantiation of `C8_omnimix_derivation`: the segment `o1` yields
`omnimix = true` and effective version `1`; the segment `1` is untouched. -/
theorem C8_omnimix_derivation_inst :
    omniSplit "o1" = .ok (true, "1") ∧ omniSplit "1" = .ok (false, "1") := by
  constructor
  · have h := C8_omnimix_derivation "o1" 'o' ['1'] rfl
    simpa using h
  · have h := C8_omnimix_derivation "1" '1' [] rfl
    simpa using h

theorem string_mk_append (a b : List Char) :
    String.mk a ++ String.mk b = String.mk (a ++ b) := rfl

/-- C9: the client URI join is slash-safe — when the base does not end in
`'/'` the result is the base, one `'/'`, then the path; when the base ends
in `'/'` the result is the base minus that trailing slash, one `'/'`, then
the path (so the join point always carries exactly the one separator the
base contributed or the client inserted); in particular `http://h` and
`http://h/` each joined with the empty path give `http://h/`. -/
theorem C9_uri_join_slash_safe (b p : String) :
    (b.data.getLast? ≠ some '/' → exchange_uri b p = b ++ "/" ++ p)
  ∧ (∀ l : List Char, b.data = l ++ ['/'] →
      exchange_uri b p = String.mk l ++ "/" ++ p)
  ∧ exchange_uri "http://h" "" = "http://h/"
  ∧ exchange_uri "http://h/" "" = "http://h/" := by
  refine ⟨?_, ?_, rfl, rfl⟩
  · intro h
    simp [exchange_uri, h]
  · intro l hl
    have hlast : b.data.getLast? = some '/' := by
      rw [hl]
      exact List.getLast?_concat l
    obtain ⟨bd⟩ := b
    have hbd : bd = l ++ ['/'] := hl
    subst hbd
    show (if (String.mk (l ++ ['/'])).data.getLast? != some '/' then _ else _) =
      String.mk l ++ "/" ++ p
    rw [if_neg (by simp [hlast])]
    obtain ⟨pd⟩ := p
    rw [show ("/" : String) = String.mk ['/'] from rfl,
      string_mk_append, string_mk_append, string_mk_append]

/-- Instantiation of `C9_uri_join_slash_safe`, discharging both conditional
branches at concrete bases. -/
theorem C9_uri_join_slash_safe_inst :
    exchange_uri "a/b" "c" = "a/b" ++ "/" ++ "c"
  ∧ exchange_uri "a/" "c" = "a" ++ "/" ++ "c" := by
  obtain ⟨h1, _, _, _⟩ := C9_uri_join_slash_safe "a/b" "c"
  obtain ⟨_, h2, _, _⟩ := C9_uri_join_slash_safe "a/" "c"
  exact ⟨h1 (by decide), h2 ['a'] rfl⟩

/-- C3: the claim asks for a 400-class status on ID-selector and envelope
validation failures, distinct from 401 and 501.  The code instead ends such
requests with HTTP 500: each failure raises `APIException(msg)`, and the
registered handler (server.py lines 104-109) reads `exception.message` and
`exception.code`, attributes a Python 3 exception built with one positional
argument does not have, so the handler itself raises `AttributeError` and
the request is answered as an internal server error.  This theorem
evaluates the code at failing inputs: an unsupported ID type, a bad ID
count, a missing mandatory key and an unrecognized key all end at status
500 — not a 400-class status. -/
theorem C3_validation_error_status :
    lookup "v1" "g" "1"
        (some [("type", .str "bogus"), ("ids", .arr []),
          ("objects", .arr [])]) =
      .error (.apiException "Invalid ID type provided!")
  ∧ lookup "v1" "g" "1"
        (some [("type", .str "card"), ("ids", .arr []),
          ("objects", .arr [])]) =
      .error (.apiException "Invalid number of IDs given!")
  ∧ lookup "v1" "g" "1" (some []) =
      .error (.apiException "Missing parameters for request.")
  ∧ lookup "v1" "g" "1"
        (some [("type", .str "card"), ("ids", .arr [.str "x"]),
          ("objects", .arr []), ("extra", .null)]) =
      .error (.apiException "Unrecognized parameters for request.")
  ∧ statusOf (.error (.apiException "Invalid ID type provided!")) = 500
  ∧ statusOf (.error (.apiException "Invalid number of IDs given!")) = 500
  ∧ statusOf (.error (.apiException "Missing parameters for request.")) = 500
  ∧ statusOf (.error (.apiException "Unrecognized parameters for request.")) =
      500 :=
  ⟨rfl, rfl, rfl, rfl, rfl, rfl, rfl, rfl⟩

/-- C4: the claim says the authentication gate is total.  It is not: a
present `Authorization` header with no space hits the `except ValueError`
arm, which sets `authtype = None`, after which `authtype.lower()`
(server.py line 69) raises `AttributeError` out of the gate.  An absent
header, and any header with a space, do take the normal path. -/
theorem C4_auth_gate_not_total :
    before_request (some "Basic") = .error PyExc.attributeError
  ∧ before_request none = .ok false
  ∧ before_request (some "Token dummy_token") = .ok true
  ∧ before_request (some "token dummy_token") = .ok true
  ∧ before_request (some "Token wrong") = .ok false
  ∧ before_request (some "Basic dummy_token") = .ok false :=
  ⟨rfl, rfl, rfl, rfl, rfl, rfl⟩

/-- C5: the claim says undecodable JSON yields HTTP 400 (`MalformedJSON`).
The code yields 500 on every malformed-JSON path: the `info` route raises
`APIException('Request JSON could not be decoded.')`, whose handler crashes
(status 500); Flask's own 400 rejection of a bad JSON body is routed to
`bad_json` (server.py lines 128-133), which itself responds with status
500; and on the lookup route an undecoded body (`None`) raises `TypeError`
(status 500).  The distinct-from-501 half of the claim does hold of these
outcomes. -/
theorem C5_malformed_json_status :
    info none = .error (.apiException "Request JSON could not be decoded.")
  ∧ statusOf (info none) = 500
  ∧ statusOf (.error (.httpException 400)) = 500
  ∧ lookup "v1" "g" "1" none = .error PyExc.typeError
  ∧ statusOf (lookup "v1" "g" "1" none) = 500 :=
  ⟨rfl, rfl, rfl, rfl, rfl⟩

theorem handlerFor_of_hashable (o : JsonValue) (h : pyHashable o = true) :
    ∃ r, handlerFor o = .ok r := by
  cases o with
  | null => exact ⟨none, rfl⟩
  | bool b => exact ⟨none, rfl⟩
  | num n => exact ⟨none, rfl⟩
  | str s =>
    by_cases h1 : s = "records"
    · exact ⟨some .records, by simp [handlerFor, h1]⟩
    · by_cases h2 : s = "profile"
      · exact ⟨some .profile, by simp [handlerFor, h1, h2]⟩
      · by_cases h3 : s = "statistics"
        · exact ⟨some .statistics, by simp [handlerFor, h1, h2, h3]⟩
        · exact ⟨none, by simp [handlerFor, h1, h2, h3]⟩
  | arr l => simp [pyHashable] at h
  | obj l => simp [pyHashable] at h

theorem dispatchLoop_fails (pv g v : String) (om : Bool) (it ids : JsonValue)
    (args : PyDict) (objs : List JsonValue) (acc : PyDict)
    (hhash : ∀ obj ∈ objs, pyHashable obj = true)
    (h : objs.any (brokenDispatch pv) = true) :
    ∃ c, dispatchLoop pv g v om it ids args objs acc =
        .error (.httpException c) ∧ (c = 404 ∨ c = 501) := by
  induction objs generalizing acc with
  | nil => simp at h
  | cons o rest ih =>
    have hho : pyHashable o = true := hhash o (List.mem_cons_self o rest)
    have hhrest : ∀ obj ∈ rest, pyHashable obj = true :=
      fun obj hm => hhash obj (List.mem_cons_of_mem o hm)
    obtain ⟨r, ho⟩ := handlerFor_of_hashable o hho
    cases r with
    | none => exact ⟨404, by simp [dispatchLoop, ho], Or.inl rfl⟩
    | some hd =>
      by_cases hf : hasFetch hd pv = true
      · have hbo : brokenDispatch pv o = false := by
          simp [brokenDispatch, ho, hf]
        have hrest : rest.any (brokenDispatch pv) = true := by
          rw [List.any_cons, hbo, Bool.false_or] at h
          exact h
        obtain ⟨c, hc, hcc⟩ := ih _ hhrest hrest
        refine ⟨c, ?_, hcc⟩
        rw [show dispatchLoop pv g v om it ids args (o :: rest) acc =
          dispatchLoop pv g v om it ids args rest
            (dictSet acc (match o with | .str s => s | _ => "")
              (fetch_v1 hd g v om it ids args)) from by
          simp [dispatchLoop, ho, hf]]
        exact hc
      · have hf' : ¬ hasFetch hd pv = true := hf
        exact ⟨501, by simp [dispatchLoop, ho, hf'], Or.inr rfl⟩

/-- C6 (amended): object dispatch is all-or-nothing — on a request that
passes envelope validation, the protocol-version gate (the only supported
version is `v1`) and ID validation, and whose requested object entries are
all hashable values (so the dict lookup itself cannot raise `TypeError`),
if any requested kind is unknown or its handler lacks the versioned fetch
capability, the whole lookup ends in an error abort (404 or 501), and the
body the matching error handler encodes carries only the `error` key — no
partial aggregate of results from kinds processed before the failure.  The
hashability restriction is forced by `C6_dispatch_cex`: an unhashable
entry ends the request at 500 instead. -/
theorem C6_dispatch_all_or_nothing (g rv : String) (rd : PyDict)
    (objs : List JsonValue) (c0 : Char) (cs0 : List Char)
    (h1 : dictHas rd "type" = true) (h2 : dictHas rd "ids" = true)
    (h3 : dictHas rd "objects" = true) (h4 : hasUnrecognized rd = false)
    (hrv : rv.data = c0 :: cs0)
    (hid : serverIdCheck ((dictFind rd "type").getD .null)
        ((dictFind rd "ids").getD .null) = .ok ())
    (hobjs : dictFind rd "objects" = some (.arr objs))
    (hhash : ∀ obj ∈ objs, pyHashable obj = true)
    (hbad : objs.any (brokenDispatch "v1") = true) :
    ∃ c, lookup "v1" g rv (some rd) = .error (.httpException c)
      ∧ (c = 404 ∨ c = 501)
      ∧ ∀ k, k ≠ "error" → dictFind (errorBody c) k = none := by
  have homni : ∃ om ev, omniSplit rv = .ok (om, ev) := by
    by_cases hc : c0 = 'o'
    · exact ⟨true, String.mk cs0, by simp [omniSplit, hrv, hc]⟩
    · exact ⟨false, rv, by simp [omniSplit, hrv, hc]⟩
  obtain ⟨om, ev, homni⟩ := homni
  obtain ⟨c, hc, hcc⟩ := dispatchLoop_fails "v1" g ev om
    ((dictFind rd "type").getD .null) ((dictFind rd "ids").getD .null)
    (((rd.filter (fun kv => !(kv.1 == "type"))).filter
      (fun kv => !(kv.1 == "ids"))).filter (fun kv => !(kv.1 == "objects")))
    objs [] hhash hbad
  refine ⟨c, ?_, hcc, ?_⟩
  · have hsup : SUPPORTED_VERSIONS.contains "v1" = true := rfl
    simp only [lookup, h1, h2, h3, h4, buildArgs_eq rd h1 h2 h3, hsup,
      Bool.not_true, Bool.not_false, if_false, if_true, Bool.false_eq_true,
      ethrow_eq, epure_eq, ebind_ok, ite_false, ite_true, homni, hid,
      hobjs, Option.getD_some, pyIter]
    exact hc
  · intro k hk
    have hke : ("error" == k) = false :=
      beq_eq_false_iff_ne.mpr (Ne.symm hk)
    rcases hcc with h | h <;> subst h <;>
      simp [errorBody, dictFind, List.find?_cons, hke]

/-- C6 as stated is false at a concrete input: the request is valid (type
`server` with no ids, envelope clean), and its object list `[[]]` contains
an entry that is not one of records/profile/statistics — but the dict
lookup `.get([])` raises `TypeError` on the unhashable key, so the request
ends at the blanket handler with HTTP 500, not a 404-class or 501-class
error. -/
theorem C6_dispatch_cex :
    lookup "v1" "g" "1"
        (some [("type", .str "server"), ("ids", .arr []),
          ("objects", .arr [.arr []])]) = .error PyExc.typeError
  ∧ statusOf (lookup "v1" "g" "1"
        (some [("type", .str "server"), ("ids", .arr []),
          ("objects", .arr [.arr []])])) = 500
  ∧ ¬ (500 = 404 ∨ 500 = 501) := ⟨rfl, rfl, by decide⟩

/-- Instantiation of `C6_dispatch_all_or_nothing` on a concrete valid
request whose object list names `records` and then an unknown (hashable)
kind. -/
theorem C6_dispatch_all_or_nothing_inst :
    ∃ c, lookup "v1" "gameX" "1"
        (some [("type", .str "server"), ("ids", .arr []),
          ("objects", .arr [.str "records", .str "bogus"])]) =
        .error (.httpException c)
      ∧ (c = 404 ∨ c = 501)
      ∧ ∀ k, k ≠ "error" → dictFind (errorBody c) k = none :=
  C6_dispatch_all_or_nothing "gameX" "1" _ [.str "records", .str "bogus"]
    '1' [] rfl rfl rfl rfl rfl rfl rfl
    (by
      intro obj hm
      simp only [List.mem_cons, List.not_mem_nil, or_false] at hm
      rcases hm with h | h <;> subst h <;> rfl) rfl

end Bemapi
